import Mathlib

/- Verification of the persona-plus chat-bot plugin (main.py, qq_profile_sync.py).

   The development shallow-embeds the plugin's pure decision logic in Lean:

   * Python strings are Lean `String`s, but every string operation the code
     relies on (strip, lower, splitlines, partition, substring containment)
     is re-implemented over `List Char` so that all definitions reduce in the
     kernel.  These helpers model the CPython behaviour the code observes
     (ASCII case folding; the whitespace set of str.strip).
   * `json.loads` is an external stdlib collaborator: it is a parameter of
     type `String → Option PyVal` (`none` models json.JSONDecodeError).
     `PyVal` models the values json.loads can produce (floats are omitted:
     no claim distinguishes them from other non-string scalars).
   * Stateful collaborators (persona store, conversation registry, platform
     profile API, the session-waiter primitive) are external; their observable
     answers are explicit parameters, and mutations the plugin would perform
     are returned as data (action traces, updated caches, reply lists). -/

namespace PersonaPlus

/-! Section: Character/string helpers (kernel-reducible models of the Python
    string operations used by the plugin) -/

/-- The whitespace characters stripped by Python `str.strip()`. -/
def isPySpace (c : Char) : Bool :=
  c == ' ' || c == '\t' || c == '\n' || c == '\r' || c == '\x0b' || c == '\x0c'

/-- Python `str.strip()`. -/
def pyStrip (s : String) : String :=
  ⟨((s.toList.dropWhile isPySpace).reverse.dropWhile isPySpace).reverse⟩

/-- Python `str.lower()` (ASCII case folding; the claims never involve
    non-ASCII cased letters). -/
def strLower (s : String) : String :=
  ⟨s.toList.map Char.toLower⟩

/-- Substring containment on character lists: Python `needle in haystack`. -/
def containsChars (needle : List Char) : List Char → Bool
  | [] => needle.isEmpty
  | c :: rest => needle.isPrefixOf (c :: rest) || containsChars needle rest

/-- Python `needle in haystack` for strings. -/
def strContains (needle haystack : String) : Bool :=
  containsChars needle.toList haystack.toList

/-- Python `c in s` for a single character. -/
def strContainsChar (s : String) (c : Char) : Bool :=
  s.toList.contains c

/-- Python `s.startswith(p)`. -/
def strStartsWith (s p : String) : Bool :=
  p.toList.isPrefixOf s.toList

/-- Split a character list at the first occurrence of `c`; `none` when `c`
    does not occur.  Models Python `str.partition` / `str.split(c, 1)`. -/
def splitFirstChars (c : Char) : List Char → Option (List Char × List Char)
  | [] => none
  | x :: xs =>
      if x = c then some ([], xs)
      else
        match splitFirstChars c xs with
        | none => none
        | some (l, r) => some (x :: l, r)

/-- Split a string on the first occurrence of a character. -/
def splitFirst (s : String) (c : Char) : Option (String × String) :=
  match splitFirstChars c s.toList with
  | none => none
  | some (l, r) => some (⟨l⟩, ⟨r⟩)

/-- Python `str.splitlines` on a character list (recognises `\n`, `\r`,
    `\r\n`; no trailing empty line).  `cur` holds the current line reversed. -/
def splitLinesChars (cur : List Char) : List Char → List (List Char)
  | [] => if cur.isEmpty then [] else [cur.reverse]
  | '\r' :: '\n' :: rest => cur.reverse :: splitLinesChars [] rest
  | '\r' :: rest => cur.reverse :: splitLinesChars [] rest
  | '\n' :: rest => cur.reverse :: splitLinesChars [] rest
  | c :: rest => splitLinesChars (c :: cur) rest

/-- Python `str.splitlines`. -/
def splitLines (s : String) : List String :=
  (splitLinesChars [] s.toList).map fun l => ⟨l⟩

/-! Section: Values produced by `json.loads`

    `main.py::_parse_persona_payload` hands user text to `json.loads` and then
    inspects the resulting Python value.  `PyVal` models those values (JSON
    floats are omitted: every claim treats numbers only through truthiness and
    `str()`, where an integer is representative). -/

inductive PyVal where
  | null
  | bool (b : Bool)
  | int (n : Int)
  | str (s : String)
  | list (xs : List PyVal)
  | dict (fields : List (String × PyVal))

/-- Python truthiness (`if not value`). -/
def PyVal.truthy : PyVal → Bool
  | .null => false
  | .bool b => b
  | .int n => n != 0
  | .str s => s != ""
  | .list xs => !xs.isEmpty
  | .dict fields => !fields.isEmpty

/-- Is the value a JSON object (`isinstance(payload, dict)`)? -/
def PyVal.isDict : PyVal → Bool
  | .dict _ => true
  | _ => false

/-- Is the value a JSON string (`isinstance(value, str)`)? -/
def PyVal.isStr : PyVal → Bool
  | .str _ => true
  | _ => false

/-- Python `str()` coercion.  Scalars match CPython; the repr-based rendering
    of nested containers is irrelevant to every claim (no claim inspects the
    text of a coerced container) and is abbreviated. -/
def PyVal.pyStr : PyVal → String
  | .null => "None"
  | .bool b => if b then "True" else "False"
  | .int n => toString n
  | .str s => s
  | .list _ => "<list>"
  | .dict _ => "<dict>"

/-- Python `len(value)`; `none` models the TypeError raised on unsized
    values. -/
def PyVal.pyLen : PyVal → Option Nat
  | .str s => some s.toList.length
  | .list xs => some xs.length
  | .dict fields => some fields.length
  | _ => none

/-- Python iteration `[... for x in value]`; `none` models the TypeError on
    non-iterables.  Iterating a string yields its characters, a dict its
    keys. -/
def PyVal.pyElems : PyVal → Option (List PyVal)
  | .str s => some (s.toList.map fun c => .str ⟨[c]⟩)
  | .list xs => some xs
  | .dict fields => some (fields.map fun p => .str p.1)
  | _ => none

/-- Python `dict.get(key)` on a parsed JSON object (keys are unique after
    `json.loads`, so first-match lookup is exact). -/
def dictGet (fields : List (String × PyVal)) (key : String) : Option PyVal :=
  match fields with
  | [] => none
  | (k, v) :: rest => if k == key then some v else dictGet rest key

/-! Section: Interactive content resolver: `main.py::_parse_persona_payload` -/

/-- The exceptions `_parse_persona_payload` can raise, with their messages. -/
inductive ParseErr where
  | emptyContent
  | jsonNotObject
  | missingSystemPrompt
  | oddBeginDialogs
  | pyTypeError
deriving DecidableEq, Repr

/-- The message text carried by each `_parse_persona_payload` exception
    (`pyTypeError` stands in for the CPython-generated TypeError text). -/
def ParseErr.message : ParseErr → String
  | .emptyContent => "内容为空，无法导入人格。"
  | .jsonNotObject => "JSON 格式必须是对象，包含 system_prompt 字段。"
  | .missingSystemPrompt => "JSON 中缺少 system_prompt 字段。"
  | .oddBeginDialogs => "begin_dialogs 条目数量必须为偶数（用户/助手交替）。"
  | .pyTypeError => "TypeError"

/-- Embeds `main.py::_parse_persona_payload(raw_text)`, parameterised by the external
    `json.loads` (`jsonLoads raw = none` models json.JSONDecodeError).
    Returns `(system_prompt, begin_dialogs)` or the raised exception. -/
def parse_persona_payload (jsonLoads : String → Option PyVal) (raw_text : String) :
    Except ParseErr (String × List String) :=
  let raw := pyStrip raw_text
  if raw == "" then .error .emptyContent
  else
    match jsonLoads raw with
    | none => .ok (raw, [])
    | some payload =>
      match payload with
      | .dict fields =>
        let prompt := (dictGet fields "system_prompt").getD .null
        if !prompt.truthy then .error .missingSystemPrompt
        else
          let begin_dialogs := (dictGet fields "begin_dialogs").getD (.list [])
          let finish : Except ParseErr (String × List String) :=
            match begin_dialogs.pyElems with
            | none => .error .pyTypeError
            | some xs => .ok (prompt.pyStr, xs.map PyVal.pyStr)
          if begin_dialogs.truthy then
            match begin_dialogs.pyLen with
            | none => .error .pyTypeError
            | some n => if n % 2 != 0 then .error .oddBeginDialogs else finish
          else finish
      | _ => .error .jsonNotObject

/-! Section: Keyword rules: `main.py::KeywordMapping`, `_parse_mapping_entry`,
    `_load_config` (mapping lines) and the `on_message` matcher -/

/-- Embeds `main.py::KeywordMapping` (dataclass with its field defaults). -/
structure KeywordMapping where
  keyword : String
  persona_id : String
  case_sensitive : Bool := false
  reply_template : String := ""
deriving DecidableEq, Repr

/-- Embeds `KeywordMapping.matches`: substring containment, both sides lowered when
    the rule is case-insensitive. -/
def KeywordMapping.matches (m : KeywordMapping) (text : String) : Bool :=
  if !m.case_sensitive then strContains (strLower m.keyword) (strLower text)
  else strContains m.keyword text

/-- The exceptions `_parse_mapping_entry` can raise (their Chinese message
    text embeds the offending entry and is not needed by any claim). -/
inductive MappingErr where
  | missingColon
  | emptyPersonaId
  | emptyKeyword
deriving DecidableEq, Repr

/-- Embeds `main.py::_parse_mapping_entry(entry)`: split at the first colon, strip
    both sides, drop a legacy `mode|` marker before the keyword. -/
def parse_mapping_entry (entry : String) : Except MappingErr KeywordMapping :=
  match splitFirst entry ':' with
  | none => .error .missingColon
  | some (left, right) =>
    let persona_id := pyStrip right
    if persona_id == "" then .error .emptyPersonaId
    else
      let keyword_part := pyStrip left
      let keyword :=
        if strContainsChar keyword_part '|' then
          match splitFirst keyword_part '|' with
          | some (_, keyword_raw) => pyStrip keyword_raw
          | none => keyword_part
        else keyword_part
      if keyword == "" then .error .emptyKeyword
      else .ok { keyword := keyword, persona_id := persona_id }

/-- One iteration of the `_load_config` mapping loop: blank and `#`-comment
    lines are skipped, a parse failure is logged and dropped. -/
def load_mapping_line (raw_entry : String) : Option KeywordMapping :=
  let entry := pyStrip raw_entry
  if entry == "" || strStartsWith entry "#" then none
  else
    match parse_mapping_entry entry with
    | .ok m => some m
    | .error _ => none

/-- Embeds the `_load_config` loop: process every line, then keep only mappings with
    non-empty keyword and persona id (the trailing comprehension filter). -/
def load_mappings_lines (entries : List String) : List KeywordMapping :=
  (entries.filterMap load_mapping_line).filter
    fun m => m.keyword != "" && m.persona_id != ""

/-- The `_load_config` loop applied to the raw multi-line `keyword_mappings` text. -/
def load_mappings (mappings_raw : String) : List KeywordMapping :=
  load_mappings_lines (splitLines mappings_raw)

/-- Python `reply_template.format(persona_id=...)`, modelled as substitution
    of the `{persona_id}` placeholder (the only field the plugin supplies). -/
def formatTemplate (template persona_id : String) : String :=
  template.replace "{persona_id}" persona_id

/-- The announce-text choice made inside `on_message` after a rule matched:
    the rule's own template if non-empty, else the generic announcement if
    the global flag is on, else nothing. -/
def computeAnnounce (announceFlag : Bool) (m : KeywordMapping) : Option String :=
  if m.reply_template != "" then some (formatTemplate m.reply_template m.persona_id)
  else if announceFlag then some ("已切换人格为 " ++ m.persona_id)
  else none

/-- The `for mapping in self.keyword_mappings ... break` scan: first rule
    that matches, if any. -/
def firstMatch (mappings : List KeywordMapping) (text : String) : Option KeywordMapping :=
  match mappings with
  | [] => none
  | m :: rest => if m.matches text then some m else firstMatch rest text

/-- Embeds `main.py::on_message` reduced to its decision: which persona the matcher
    switches to and which announce text it passes along (`none` when the
    guard short-circuits or no rule matches). -/
def on_message (enabled announceFlag : Bool) (mappings : List KeywordMapping)
    (text : String) : Option (String × Option String) :=
  if text == "" || !enabled || mappings.isEmpty then none
  else
    match firstMatch mappings text with
    | none => none
    | some m => some (m.persona_id, computeAnnounce announceFlag m)

/-! Section: Profile sync cache: `qq_profile_sync.py::QQProfileSync` -/

/-- The in-memory `_last_synced_persona` dict (`bot_key → persona_id`),
    modelled as an association list with Python-dict update semantics. -/
abbrev SyncCache := List (String × String)

/-- Python `dict.get` on the sync cache. -/
def cacheGet (cache : SyncCache) (key : String) : Option String :=
  match cache with
  | [] => none
  | (k, v) :: rest => if k == key then some v else cacheGet rest key

/-- Python dict assignment on the sync cache (replace in place or append). -/
def cacheSet (cache : SyncCache) (key value : String) : SyncCache :=
  match cache with
  | [] => [(key, value)]
  | (k, v) :: rest =>
      if k == key then (key, value) :: rest else (k, v) :: cacheSet rest key value

/-- Embeds `QQProfileSync.reset_persona_cache(persona_id)`: purge every cache entry
    whose value is the persona id.  Defined in the source (and called by
    `delete_avatar`) but never invoked from any command in `main.py`. -/
def reset_persona_cache (cache : SyncCache) (persona_id : String) : SyncCache :=
  cache.filter fun kv => kv.2 != persona_id

/-- The configuration fields read by `maybe_sync_profile`. -/
structure SyncConfig where
  enabled : Bool
  sync_nickname : Bool
  sync_avatar : Bool
deriving DecidableEq, Repr

/-- The external facts `maybe_sync_profile` observes about the inbound event
    and the platform adapter: event class, bot identity, which profile
    capabilities the adapter exposes, and whether each push call returns
    without raising. -/
structure SyncEnv where
  isAiocqhttp : Bool
  platform_id : String
  self_id : String
  hasSetProfile : Bool
  setProfileOk : Bool
  hasSetAvatar : Bool
  setAvatarOk : Bool
deriving DecidableEq, Repr

/-- The bot identity key, `platform_id` and `self_id` joined by a colon. -/
def SyncEnv.botKey (env : SyncEnv) : String :=
  env.platform_id ++ ":" ++ env.self_id

/-- What one `maybe_sync_profile` call did: the cache afterwards, which push
    calls were issued (the adapter method was invoked) and which succeeded
    (the local `nickname_applied` / `avatar_synced` flags). -/
structure SyncOutcome where
  cache : SyncCache
  nicknameAttempted : Bool
  nicknameApplied : Bool
  avatarAttempted : Bool
  avatarSynced : Bool
deriving DecidableEq, Repr

/-- Outcome of a call that returned on an early guard: nothing pushed,
    cache untouched. -/
def SyncOutcome.noop (cache : SyncCache) : SyncOutcome :=
  ⟨cache, false, false, false, false⟩

/-- The push phase of `maybe_sync_profile` (everything after the early
    guards), factored out so proofs can reason about the guard structure and
    the push bookkeeping separately.  Mirrors the source: nickname push is
    issued when the adapter has `set_qq_profile`, succeeds when the call does
    not raise; avatar push is issued when the asset file exists and the
    adapter has `set_qq_avatar`; the cache entry is rebound only when at
    least one push succeeded. -/
def syncPushOutcome (cfg : SyncConfig) (env : SyncEnv) (cache : SyncCache)
    (avatarFiles : List String) (persona_id : String) (force : Bool) :
    SyncOutcome :=
  let nicknameAttempted := (force || cfg.sync_nickname) && env.hasSetProfile
  let nickname_applied := nicknameAttempted && env.setProfileOk
  let avatarAttempted :=
    (force || cfg.sync_avatar) && avatarFiles.contains persona_id
      && env.hasSetAvatar
  let avatar_synced := avatarAttempted && env.setAvatarOk
  let cache' :=
    if nickname_applied || avatar_synced then
      cacheSet cache env.botKey persona_id
    else cache
  ⟨cache', nicknameAttempted, nickname_applied, avatarAttempted, avatar_synced⟩

/-- Embeds `qq_profile_sync.py::maybe_sync_profile(event, persona_id, force)`.
    `avatarFiles` lists the persona ids whose avatar asset exists on disk
    (`get_avatar_path(pid).exists()`; paths are derived injectively from the
    id).  The nickname text itself is irrelevant to every claim and is not
    recorded. -/
def maybe_sync_profile (cfg : SyncConfig) (env : SyncEnv) (cache : SyncCache)
    (avatarFiles : List String) (persona_id : String) (force : Bool) :
    SyncOutcome :=
  if !env.isAiocqhttp then .noop cache
  else if !(cfg.enabled || force) then .noop cache
  else if !((force || cfg.sync_nickname) || (force || cfg.sync_avatar)) then
    .noop cache
  else if !force && cacheGet cache env.botKey == some persona_id then .noop cache
  else syncPushOutcome cfg env cache avatarFiles persona_id force

/-! Section: `main.py::cmd_delete`

    The delete command checks permission, calls the external
    `persona_mgr.delete_persona`, and replies.  It performs no other action:
    in particular it never touches the `QQProfileSync` state, which the
    embedding makes explicit by threading the sync cache through. -/

/-- Embeds `cmd_delete`.  `deleteError = some msg` models `delete_persona` raising
    `ValueError(msg)`.  Returns the sync cache afterwards and the reply. -/
def cmd_delete (cache : SyncCache) (hasPermission : Bool)
    (deleteError : Option String) (persona_id : String) : SyncCache × String :=
  if !hasPermission then (cache, "此操作需要管理员权限。")
  else
    match deleteError with
    | some msg => (cache, msg)
    | none => (cache, "人格 " ++ persona_id ++ " 已删除。")

/-! Section: Persona switch orchestrator: `main.py::_switch_persona` -/

/-- The mutations `_switch_persona` can perform, in order, as a trace. -/
inductive SwitchAction where
  | newConversation (umo persona_id : String)
  | updateConversation (umo cid persona_id : String) (historyCleared : Bool)
  | saveSessionConfig (umo persona_id : String)
  | saveGlobalConfig (persona_id : String)
  | profileSync (persona_id : String)
deriving DecidableEq, Repr

/-- Embeds `main.py::_switch_persona(event, persona_id, announce)`.
    `personaResolves` is the external `persona_mgr.get_persona` answer
    (`false` models its ValueError, which propagates before anything else
    runs); `currConvId` the registry's current conversation for the origin;
    `hasScopedConf` whether `astrbot_config_mgr.get_conf(umo)` is non-None.
    On success it returns the ordered mutation trace and the optional reply. -/
def switch_persona (scope : String) (clearContext : Bool)
    (personaResolves : Bool) (currConvId : Option String)
    (hasScopedConf : Bool) (umo persona_id : String)
    (announce : Option String) : Option (List SwitchAction × Option String) :=
  if !personaResolves then none
  else
    let convUpdate : List SwitchAction :=
      match currConvId with
      | some cid => [.updateConversation umo cid persona_id clearContext]
      | none => []
    let storage : List SwitchAction :=
      if scope == "conversation" then
        match currConvId with
        | none => [.newConversation umo persona_id]
        | some cid => [.updateConversation umo cid persona_id clearContext]
      else if scope == "session" then
        (if hasScopedConf then [.saveSessionConfig umo persona_id] else [])
          ++ convUpdate
      else if scope == "global" then
        .saveGlobalConfig persona_id :: convUpdate
      else []
    some (storage ++ [.profileSync persona_id], announce)

/-! Section: Interactive create flow: `main.py::cmd_create` -/

/-- How the external session-waiter resolves the wait spawned by
    `cmd_create`: the next inbound event from the same origin arrives and the
    one-shot callback runs (`delivered`, carrying what
    `_extract_persona_from_event` yields for it and whether the persona id
    exists in the store by then), or the deadline expires
    (`TimeoutError`), or the wait itself fails with another exception. -/
inductive WaitOutcome where
  | delivered (extractResult : Except String String) (personaExists : Bool)
  | timeout
  | failed (msg : String)

/-- Observable outcome of the create flow: replies sent on the original
    command's event, replies sent on the next (content) event, whether
    `persona_mgr.create_persona` was called, and whether `controller.stop()`
    ran. -/
structure CreateFlowResult where
  originalReplies : List String
  nextReplies : List String
  createCalled : Bool
  controllerStopped : Bool
deriving DecidableEq, Repr

/-- The body of `create_waiter` (the one-shot callback): extract content,
    parse it, call `_create_persona` (which creates only if the id is still
    absent), replying on the next event.  Returns (replies, createCalled). -/
def create_waiter_body (jsonLoads : String → Option PyVal) (persona_id : String)
    (extractResult : Except String String) (personaExists : Bool) :
    List String × Bool :=
  match extractResult with
  | .error msg => (["创建失败：" ++ msg], false)
  | .ok raw_text =>
    match parse_persona_payload jsonLoads raw_text with
    | .error e => (["创建失败：" ++ e.message], false)
    | .ok _ =>
      if personaExists then
        (["创建失败：人格 " ++ persona_id ++ " 已存在，请使用 /persona_plus update "
            ++ persona_id ++ "。"], false)
      else (["人格 " ++ persona_id ++ " 创建成功。"], true)

/-- Embeds `main.py::wait_for_create` (the detached task driving the wait): on
    timeout or unexpected failure it reports on the original command's event
    and nothing else happens; on delivery the callback body runs and
    `controller.stop()` is guaranteed by the `finally`. -/
def wait_for_create (jsonLoads : String → Option PyVal) (persona_id : String)
    (outcome : WaitOutcome) : CreateFlowResult :=
  match outcome with
  | .timeout => ⟨["等待人格内容超时，操作已取消。"], [], false, false⟩
  | .failed msg => ⟨["创建流程异常：" ++ msg], [], false, false⟩
  | .delivered extractResult personaExists =>
    let body := create_waiter_body jsonLoads persona_id extractResult personaExists
    ⟨[], body.1, body.2, true⟩

/-! Section: Claims about `_parse_persona_payload` (C1, C7) -/

/-- C1 counterexample: the input `"[1]"` parses as a JSON array (a non-object
    type), and `_parse_persona_payload` raises the ValueError demanding an
    object instead of returning the trimmed text verbatim with no dialogs. -/
theorem nonobject_json_rejected_cex :
    parse_persona_payload
        (fun s => if s == "[1]" then some (.list [.int 1]) else none) "[1]"
      = .error .jsonNotObject
  ∧ parse_persona_payload
        (fun s => if s == "[1]" then some (.list [.int 1]) else none) "[1]"
      ≠ .ok ("[1]", []) :=
  ⟨rfl, fun h => Except.noConfusion h⟩

/-- C1 amended: whenever the trimmed input is non-empty and `json.loads`
    yields a value that is not an object, `_parse_persona_payload` does not
    treat it as plain text: it fails with the JSON-must-be-an-object error. -/
theorem nonobject_json_rejected (jsonLoads : String → Option PyVal)
    (raw_text : String) (v : PyVal)
    (hne : (pyStrip raw_text == "") = false)
    (hparse : jsonLoads (pyStrip raw_text) = some v)
    (hv : v.isDict = false) :
    parse_persona_payload jsonLoads raw_text = .error .jsonNotObject := by
  unfold parse_persona_payload
  simp only [hne, Bool.false_eq_true, if_false, hparse]
  cases v with
  | dict fields => simp [PyVal.isDict] at hv
  | null => rfl
  | bool b => rfl
  | int n => rfl
  | str s => rfl
  | list xs => rfl

/-- Witness for the amended C1 at the concrete input `"123"`. -/
theorem nonobject_json_rejected_witness :
    parse_persona_payload
        (fun s => if s == "123" then some (.int 123) else none) "123"
      = .error .jsonNotObject :=
  nonobject_json_rejected _ "123" (.int 123) rfl rfl rfl

/-- C7 counterexample: the object `\x7b"system_prompt": 5\x7d` contains no
    `system_prompt` string at all, yet `_parse_persona_payload` succeeds
    (Python truthiness admits the number 5) and coerces the prompt to "5". -/
theorem truthy_nonstring_prompt_accepted_cex :
    ((dictGet [("system_prompt", PyVal.int 5)] "system_prompt").getD .null).isStr
      = false
  ∧ parse_persona_payload
        (fun s => if s == "P5" then some (.dict [("system_prompt", .int 5)]) else none)
        "P5"
      = .ok ("5", []) :=
  ⟨rfl, rfl⟩

/-- C7 amended: for input parsing to a JSON object, the call fails with the
    missing-`system_prompt` error exactly when the `system_prompt` entry is
    absent or falsy (so any non-empty string is accepted, but so is any other
    truthy value, coerced by `str()`); given a truthy prompt, a `begin_dialogs`
    list fails the parse when its length is odd and succeeds for every even
    length including zero, and an absent `begin_dialogs` succeeds with no
    dialogs. -/
theorem object_payload_rules (jsonLoads : String → Option PyVal)
    (raw_text : String) (fields : List (String × PyVal))
    (hne : (pyStrip raw_text == "") = false)
    (hparse : jsonLoads (pyStrip raw_text) = some (.dict fields)) :
    (((dictGet fields "system_prompt").getD .null).truthy = false →
      parse_persona_payload jsonLoads raw_text = .error .missingSystemPrompt)
  ∧ (∀ dialogs : List PyVal,
      ((dictGet fields "system_prompt").getD .null).truthy = true →
      dictGet fields "begin_dialogs" = some (.list dialogs) →
      (dialogs.length % 2 = 1 →
        parse_persona_payload jsonLoads raw_text = .error .oddBeginDialogs)
      ∧ (dialogs.length % 2 = 0 →
        parse_persona_payload jsonLoads raw_text
          = .ok (((dictGet fields "system_prompt").getD .null).pyStr,
              dialogs.map PyVal.pyStr)))
  ∧ (((dictGet fields "system_prompt").getD .null).truthy = true →
      dictGet fields "begin_dialogs" = none →
      parse_persona_payload jsonLoads raw_text
        = .ok (((dictGet fields "system_prompt").getD .null).pyStr, [])) := by
  unfold parse_persona_payload
  simp only [hne, Bool.false_eq_true, if_false, hparse]
  refine ⟨fun hfalsy => by simp [hfalsy], fun dialogs htruthy hbd => ?_, ?_⟩
  · simp only [htruthy, Bool.not_true, Bool.false_eq_true, if_false, hbd,
      Option.getD_some]
    constructor
    · intro hodd
      have hne' : dialogs ≠ [] := by
        intro h; rw [h] at hodd; simp at hodd
      simp [PyVal.truthy, PyVal.pyLen, List.isEmpty_eq_false.mpr hne', hodd,
        Nat.mod_two_ne_zero.mpr hodd]
    · intro heven
      by_cases hnil : dialogs = []
      · subst hnil
        simp [PyVal.truthy, PyVal.pyElems]
      · simp [PyVal.truthy, PyVal.pyLen, PyVal.pyElems,
          List.isEmpty_eq_false.mpr hnil, heven]
  · intro htruthy hnone
    simp only [htruthy, Bool.not_true, Bool.false_eq_true, if_false, hnone,
      Option.getD_none]
    rfl

/-- Witness for the amended C7: an odd single-entry `begin_dialogs` fails. -/
theorem object_payload_rules_witness :
    parse_persona_payload
        (fun s =>
          if s == "Q" then
            some (.dict [("system_prompt", .str "X"),
                         ("begin_dialogs", .list [.str "hi"])])
          else none) "Q"
      = .error .oddBeginDialogs :=
  ((object_payload_rules _ "Q"
      [("system_prompt", .str "X"), ("begin_dialogs", .list [.str "hi"])]
      rfl rfl).2.1 [.str "hi"] rfl rfl).1 rfl

/-! Section: Claims about the mapping rule parser (C8, C10) -/

/-- Helper: a character list without an occurrence of `c` never splits. -/
theorem splitFirstChars_eq_none (c : Char) (l : List Char)
    (h : ∀ x ∈ l, x ≠ c) : splitFirstChars c l = none := by
  induction l with
  | nil => rfl
  | cons x xs ih =>
    have hx : x ≠ c := h x (by simp)
    simp only [splitFirstChars, if_neg hx,
      ih fun y hy => h y (by simp [hy])]

/-- Helper: a successful `_parse_mapping_entry` only ever builds the mapping
    through the dataclass defaults. -/
theorem parse_mapping_entry_ok (entry : String) (m : KeywordMapping)
    (h : parse_mapping_entry entry = .ok m) :
    m.case_sensitive = false ∧ m.reply_template = "" := by
  unfold parse_mapping_entry at h
  split at h
  · exact absurd h (by simp)
  · dsimp only at h
    repeat' split at h
    all_goals
      first
        | exact Except.noConfusion h
        | (injection h with h; subst h; exact ⟨rfl, rfl⟩)

/-- Helper: a line the loader keeps came from a successful parse. -/
theorem load_mapping_line_some (line : String) (m : KeywordMapping)
    (h : load_mapping_line line = some m) :
    parse_mapping_entry (pyStrip line) = .ok m := by
  unfold load_mapping_line at h
  dsimp only at h
  split at h
  · exact absurd h (by simp)
  · split at h
    · rw [Option.some.injEq] at h
      subst h
      assumption
    · exact absurd h (by simp)

/-- C8: a line the loader drops (no colon, empty keyword or empty persona id
    after trimming, blank, or comment) never disturbs the surrounding lines —
    the loaded rules are exactly those of the other lines in declaration
    order; an entry without a colon always fails with the missing-colon
    error; and the spec's example text yields exactly the rules `hello` and
    `hi`, both mapping to `cheerful`. -/
theorem mapping_load_resilient (pre post : List String) (bad : String)
    (hbad : load_mapping_line bad = none) :
    (load_mappings_lines (pre ++ bad :: post)
      = load_mappings_lines pre ++ load_mappings_lines post)
  ∧ (∀ entry : String, (∀ c ∈ entry.toList, c ≠ ':') →
      parse_mapping_entry entry = .error .missingColon)
  ∧ load_mappings "hello:cheerful\n# comment\nbad_line\nhi:cheerful"
      = [{ keyword := "hello", persona_id := "cheerful" },
         { keyword := "hi", persona_id := "cheerful" }] := by
  refine ⟨?_, ?_, rfl⟩
  · simp [load_mappings_lines, List.filterMap_append, List.filterMap_cons, hbad]
  · intro entry hnc
    unfold parse_mapping_entry splitFirst
    rw [splitFirstChars_eq_none ':' entry.toList hnc]

/-- Witness for C8 with a concrete bad line between two good ones. -/
theorem mapping_load_resilient_witness :
    load_mappings_lines (["a:b"] ++ "bad_line" :: ["c:d"])
      = load_mappings_lines ["a:b"] ++ load_mappings_lines ["c:d"] :=
  (mapping_load_resilient ["a:b"] ["c:d"] "bad_line" rfl).1

/-- C10: every rule the configuration loader produces is case-insensitive
    with an empty reply template, so the matcher's per-rule template branch
    is never taken for configuration-derived rules: the announce text is the
    generic message exactly when the global flag is set. -/
theorem config_rules_defaults (entries : List String) (m : KeywordMapping)
    (hm : m ∈ load_mappings_lines entries) (announceFlag : Bool) :
    m.case_sensitive = false ∧ m.reply_template = ""
  ∧ computeAnnounce announceFlag m
      = (if announceFlag then some ("已切换人格为 " ++ m.persona_id) else none) := by
  have hm' : (∃ line ∈ entries, load_mapping_line line = some m)
      ∧ ¬m.keyword = "" ∧ ¬m.persona_id = "" := by
    simpa [load_mappings_lines, List.mem_filterMap, List.mem_filter] using hm
  obtain ⟨⟨line, _, hline⟩, -, -⟩ := hm'
  obtain ⟨hcs, hrt⟩ :=
    parse_mapping_entry_ok (pyStrip line) m (load_mapping_line_some line m hline)
  refine ⟨hcs, hrt, ?_⟩
  unfold computeAnnounce
  rw [hrt]
  simp

/-- Witness for C10 on a loaded one-rule configuration. -/
theorem config_rules_defaults_witness :
    (KeywordMapping.mk "hello" "cheerful" false "").case_sensitive = false
  ∧ (KeywordMapping.mk "hello" "cheerful" false "").reply_template = ""
  ∧ computeAnnounce true (KeywordMapping.mk "hello" "cheerful" false "")
      = some ("已切换人格为 " ++ "cheerful") :=
  config_rules_defaults ["hello:cheerful"] _ (by decide) true

/-! Section: Claim about the keyword auto-switch matcher (C5) -/

/-- Helper: rules that fail to match are scanned past. -/
theorem firstMatch_append_none (pre rest : List KeywordMapping) (text : String)
    (hpre : ∀ m ∈ pre, m.matches text = false) :
    firstMatch (pre ++ rest) text = firstMatch rest text := by
  induction pre with
  | nil => rfl
  | cons a l ih =>
    simp only [List.cons_append, firstMatch, hpre a (by simp),
      Bool.false_eq_true, if_false]
    exact ih fun m hm => hpre m (by simp [hm])

/-- C5: on non-empty text with the feature enabled, the first rule in
    declaration order whose keyword matches wins — the result is independent
    of every later rule — and the announce text is the rule's template with
    `{persona_id}` substituted when the template is non-empty, else the
    generic message when the global flag is set, else nothing. -/
theorem keyword_first_match_wins (pre post : List KeywordMapping)
    (m : KeywordMapping) (announceFlag : Bool) (text : String)
    (htext : (text == "") = false)
    (hpre : ∀ m' ∈ pre, m'.matches text = false)
    (hm : m.matches text = true) :
    on_message true announceFlag (pre ++ m :: post) text
      = some (m.persona_id,
          if m.reply_template != "" then
            some (formatTemplate m.reply_template m.persona_id)
          else if announceFlag then some ("已切换人格为 " ++ m.persona_id)
          else none) := by
  unfold on_message
  rw [firstMatch_append_none pre (m :: post) text hpre]
  simp [htext, firstMatch, hm, computeAnnounce]

/-- Witness for C5: an earlier non-matching rule, the winning rule, and a
    shadowed later rule that also matches. -/
theorem keyword_first_match_wins_witness :
    on_message true true
        [⟨"x", "a", false, ""⟩, ⟨"hello", "cheerful", false, ""⟩,
         ⟨"hell", "other", false, ""⟩] "say Hello"
      = some ("cheerful", some ("已切换人格为 " ++ "cheerful")) :=
  keyword_first_match_wins [⟨"x", "a", false, ""⟩] [⟨"hell", "other", false, ""⟩]
    ⟨"hello", "cheerful", false, ""⟩ true "say Hello" rfl (by decide) rfl

/-! Section: Claims about the profile sync cache (C2, C3, C4) -/

/-- Helper: dict update followed by lookup of the same key. -/
theorem cacheGet_cacheSet (cache : SyncCache) (key value : String) :
    cacheGet (cacheSet cache key value) key = some value := by
  induction cache with
  | nil => simp [cacheSet, cacheGet]
  | cons kv rest ih =>
    by_cases h : kv.1 == key
    · simp [cacheSet, cacheGet, h]
    · simpa [cacheSet, cacheGet, h] using ih

/-- Helper: every call either returns on an early guard or runs the push
    phase. -/
theorem sync_outcome_cases (cfg : SyncConfig) (env : SyncEnv) (cache : SyncCache)
    (avatarFiles : List String) (persona_id : String) (force : Bool) :
    maybe_sync_profile cfg env cache avatarFiles persona_id force
        = .noop cache
  ∨ maybe_sync_profile cfg env cache avatarFiles persona_id force
        = syncPushOutcome cfg env cache avatarFiles persona_id force := by
  unfold maybe_sync_profile
  repeat' split
  all_goals first | exact Or.inl rfl | exact Or.inr rfl

/-- Helper: across every branch of `maybe_sync_profile`, the resulting cache
    is the old cache with `bot_key` rebound to the persona exactly when one
    of the two pushes succeeded, and untouched otherwise. -/
theorem sync_cache_spec (cfg : SyncConfig) (env : SyncEnv) (cache : SyncCache)
    (avatarFiles : List String) (persona_id : String) (force : Bool) :
    (maybe_sync_profile cfg env cache avatarFiles persona_id force).cache
      = (if (maybe_sync_profile cfg env cache avatarFiles persona_id force).nicknameApplied
            || (maybe_sync_profile cfg env cache avatarFiles persona_id force).avatarSynced
         then cacheSet cache env.botKey persona_id
         else cache) := by
  rcases sync_outcome_cases cfg env cache avatarFiles persona_id force with h | h
    <;> rw [h]
  · rfl
  · rfl

/-- Helper: with `force = false` and the cache already recording this persona
    for this bot identity, a call is an early-returning no-op. -/
theorem sync_noop_of_cached (cfg : SyncConfig) (env : SyncEnv) (cache : SyncCache)
    (avatarFiles : List String) (persona_id : String)
    (h : cacheGet cache env.botKey = some persona_id) :
    maybe_sync_profile cfg env cache avatarFiles persona_id false
      = .noop cache := by
  unfold maybe_sync_profile
  repeat' split
  all_goals simp_all

/-- C3: `maybe_sync_profile` rebinds the bot identity's cache entry to the
    new persona exactly when at least one of the nickname or avatar pushes
    succeeded in that call; if both are skipped or fail the cache is left
    unchanged. -/
theorem sync_cache_updated_iff_push_succeeded (cfg : SyncConfig) (env : SyncEnv)
    (cache : SyncCache) (avatarFiles : List String) (persona_id : String)
    (force : Bool) :
    (maybe_sync_profile cfg env cache avatarFiles persona_id force).cache
      = (if (maybe_sync_profile cfg env cache avatarFiles persona_id force).nicknameApplied
            || (maybe_sync_profile cfg env cache avatarFiles persona_id force).avatarSynced
         then cacheSet cache env.botKey persona_id
         else cache) :=
  sync_cache_spec cfg env cache avatarFiles persona_id force

/-- Witness for C3 at concrete arguments (a successful nickname push). -/
theorem sync_cache_updated_iff_push_succeeded_witness :
    (maybe_sync_profile ⟨true, true, false⟩ ⟨true, "qq", "1", true, true, true, true⟩
        [] [] "p" false).cache
      = (if (maybe_sync_profile ⟨true, true, false⟩
              ⟨true, "qq", "1", true, true, true, true⟩ [] [] "p" false).nicknameApplied
            || (maybe_sync_profile ⟨true, true, false⟩
              ⟨true, "qq", "1", true, true, true, true⟩ [] [] "p" false).avatarSynced
         then cacheSet [] (SyncEnv.botKey ⟨true, "qq", "1", true, true, true, true⟩) "p"
         else []) :=
  sync_cache_updated_iff_push_succeeded ⟨true, true, false⟩
    ⟨true, "qq", "1", true, true, true, true⟩ [] [] "p" false

/-- C4 counterexample: with the nickname capability present but the push call
    failing, two consecutive non-forced switches to the same persona for the
    same bot identity both issue a nickname push — more than one push
    combined, because the first call's failure left the cache unchanged. -/
theorem repeat_switch_repushes_cex :
    (maybe_sync_profile ⟨true, true, false⟩ ⟨true, "qq", "1", true, false, true, true⟩
        [] [] "p" false).nicknameAttempted = true
  ∧ (maybe_sync_profile ⟨true, true, false⟩ ⟨true, "qq", "1", true, false, true, true⟩
        (maybe_sync_profile ⟨true, true, false⟩ ⟨true, "qq", "1", true, false, true, true⟩
          [] [] "p" false).cache
        [] "p" false).nicknameAttempted = true :=
  ⟨rfl, rfl⟩

/-- C4 amended: with `force = false`, a call for a persona the cache already
    records for this bot identity is a no-op (no push issued, cache
    unchanged); consequently, whenever a first non-forced call succeeded in
    at least one push, the consecutive second call for the same persona and
    identity issues no further push — so at most one round of pushes happens
    combined provided the first call's pushes did not all fail or get
    skipped. -/
theorem sync_idempotent_after_success (cfg : SyncConfig) (env : SyncEnv)
    (cache cache₀ : SyncCache) (avatarFiles : List String)
    (persona_id : String) :
    (cacheGet cache env.botKey = some persona_id →
      maybe_sync_profile cfg env cache avatarFiles persona_id false
        = .noop cache)
  ∧ ((maybe_sync_profile cfg env cache₀ avatarFiles persona_id false).nicknameApplied = true
      ∨ (maybe_sync_profile cfg env cache₀ avatarFiles persona_id false).avatarSynced = true →
      maybe_sync_profile cfg env
          (maybe_sync_profile cfg env cache₀ avatarFiles persona_id false).cache
          avatarFiles persona_id false
        = .noop (maybe_sync_profile cfg env cache₀ avatarFiles persona_id false).cache) := by
  constructor
  · exact fun h => sync_noop_of_cached cfg env cache avatarFiles persona_id h
  · intro h
    have hcache : (maybe_sync_profile cfg env cache₀ avatarFiles persona_id false).cache
        = cacheSet cache₀ env.botKey persona_id := by
      rw [sync_cache_spec cfg env cache₀ avatarFiles persona_id false]
      rcases h with h | h <;> simp [h]
    refine sync_noop_of_cached cfg env _ avatarFiles persona_id ?_
    rw [hcache]
    exact cacheGet_cacheSet cache₀ env.botKey persona_id

/-- Witness for the amended C4: a second switch to the already-recorded
    persona is a no-op, and after a successful first push the follow-up call
    is a no-op as well. -/
theorem sync_idempotent_after_success_witness :
    maybe_sync_profile ⟨true, true, false⟩ ⟨true, "qq", "1", true, true, true, true⟩
        [("qq:1", "p")] [] "p" false = .noop [("qq:1", "p")]
  ∧ maybe_sync_profile ⟨true, true, false⟩ ⟨true, "qq", "1", true, true, true, true⟩
        (maybe_sync_profile ⟨true, true, false⟩ ⟨true, "qq", "1", true, true, true, true⟩
          [] [] "p" false).cache
        [] "p" false
      = .noop (maybe_sync_profile ⟨true, true, false⟩ ⟨true, "qq", "1", true, true, true, true⟩
          [] [] "p" false).cache :=
  ⟨(sync_idempotent_after_success ⟨true, true, false⟩
      ⟨true, "qq", "1", true, true, true, true⟩ [("qq:1", "p")] [] [] "p").1 rfl,
   (sync_idempotent_after_success ⟨true, true, false⟩
      ⟨true, "qq", "1", true, true, true, true⟩ [("qq:1", "p")] [] [] "p").2
     (Or.inl rfl)⟩

/-- C2 (code bug): the delete command succeeds but leaves the profile-sync
    cache entry pointing at the deleted persona in place — `cmd_delete` never
    invokes `QQProfileSync.delete_avatar` / `reset_persona_cache` — so a
    subsequent switch to a re-created persona of the same id is suppressed as
    a duplicate (no push is attempted).  The purge the spec describes exists
    in the source (`reset_persona_cache`) and would have removed the entry,
    but it is dead code. -/
theorem delete_leaves_sync_cache :
    (cmd_delete [("qq:1", "p")] true none "p").1 = [("qq:1", "p")]
  ∧ maybe_sync_profile ⟨true, true, false⟩ ⟨true, "qq", "1", true, true, true, true⟩
        [("qq:1", "p")] [] "p" false
      = .noop [("qq:1", "p")]
  ∧ reset_persona_cache [("qq:1", "p")] "p" = [] :=
  ⟨rfl, rfl, rfl⟩

/-! Section: Claim about the interactive create flow (C6) -/

/-- C6: when the wait spawned by `cmd_create` expires before any matching
    event arrives, the driver sends the cancellation message on the original
    command's event, sends nothing on any other channel, and
    `persona_mgr.create_persona` is never called. -/
theorem create_timeout_cancels (jsonLoads : String → Option PyVal)
    (persona_id : String) :
    wait_for_create jsonLoads persona_id .timeout
      = ⟨["等待人格内容超时，操作已取消。"], [], false, false⟩ :=
  rfl

/-- Witness for C6 at a concrete loader and persona id. -/
theorem create_timeout_cancels_witness :
    wait_for_create (fun _ => none) "bot_a" .timeout
      = ⟨["等待人格内容超时，操作已取消。"], [], false, false⟩ :=
  create_timeout_cancels (fun _ => none) "bot_a"

/-! Section: Claim about the persona switch orchestrator (C9) -/

/-- C9: when the persona id does not resolve in the persona store,
    `_switch_persona` propagates the store's error before anything else runs:
    the mutation trace is empty — no conversation is created or updated, no
    configuration saved, no profile sync invoked. -/
theorem switch_notfound_no_mutation (scope : String) (clearContext : Bool)
    (currConvId : Option String) (hasScopedConf : Bool)
    (umo persona_id : String) (announce : Option String) :
    switch_persona scope clearContext false currConvId hasScopedConf
        umo persona_id announce = none :=
  rfl

/-- Witness for C9 at concrete arguments. -/
theorem switch_notfound_no_mutation_witness :
    switch_persona "conversation" false false none true "u" "p" none = none :=
  switch_notfound_no_mutation "conversation" false none true "u" "p" none

end PersonaPlus
